import Mathlib

/-!
Verification of the facility-booker core (`ubc.ts`) against its
natural-language specification.

The definitions below are a shallow embedding of the TypeScript source:

* time handling (`to24h`, `durationMinutes`, the booking pipeline's
  24h → 12h label conversion) from `ubc.ts`;
* the availability scanner (`extractSlotsFromScheduler`, the preference
  filter, `scanCourtsAndSlots`) and the public entry points
  (`checkAvailability`, `bookSlot`), with every DOM probe represented by
  an environment value and every throwing `await` represented in the
  `Except` monad;
* the login flow (`ensureLoggedIn`) as an action-trace producing state
  machine.

The repository keeps several revisions of `ubc.ts`.  The final revision
(the one exporting `bookSlot`, with `to24h`/`durationMinutes`/
`extractSlotsFromScheduler` and the sorted output) is embedded in the
`Ubc` namespace; the intermediate revision at `src/src/ubc.ts` (whose
`checkAvailability` catches scanner errors and substitutes the stub
slot) is embedded in the `UbcMid` namespace.
-/

namespace FacilityBooker

/-- A 12-hour clock label `h:mm AM/PM`, as extracted by the source's
regular expression `(\d{1,2}):(\d{2})\s*(AM|PM)`:  `hour` is the
1–2-digit hour field, `minute` the 2-digit minute field, `isPM` whether
the suffix was `PM`. -/
structure Time12 where
  hour : Nat
  minute : Nat
  isPM : Bool
deriving DecidableEq, Repr

/-- A 24-hour time `HH:MM` as the pair of its numeric fields (the
source's `start24.split(":").map(Number)`). -/
structure Time24 where
  hour : Nat
  minute : Nat
deriving DecidableEq, Repr

/-- JavaScript `String(n).padStart(2, "0")` for the numbers appearing
here (they are all below 100). -/
def pad2 (n : Nat) : String :=
  if n < 10 then "0" ++ toString n else toString n

/-- The hour arithmetic of `to24h` in `ubc.ts`:
`if (h === 12 && !isPM) h = 0; else if (h !== 12 && isPM) h += 12;`. -/
def to24hHour (h : Nat) (isPM : Bool) : Nat :=
  if h = 12 ∧ isPM = false then 0
  else if ¬h = 12 ∧ isPM = true then h + 12
  else h

/-- `to24h` of `ubc.ts` ("03:00 PM" → "15:00") at the level of the
fields its regular expression extracts; the minute field is passed
through unchanged. -/
def to24h (t : Time12) : Time24 :=
  ⟨to24hHour t.hour t.isPM, t.minute⟩

/-- Rendering of a `Time24` as the source's
`h.toString().padStart(2, "0") + ":" + mm` string. -/
def fmt24 (t : Time24) : String :=
  pad2 t.hour ++ ":" ++ pad2 t.minute

/-- The hour arithmetic of the booking pipeline's 24h → 12h conversion:
`const hour12 = hour === 0 ? 12 : hour > 12 ? hour - 12 : hour;`. -/
def to12hHour (hour : Nat) : Nat :=
  if hour = 0 then 12 else if hour > 12 then hour - 12 else hour

/-- The booking pipeline's 12-hour label
`` `${hour12}:${minute.toString().padStart(2, "0")} ${ampm}` `` with
`ampm = hour >= 12 ? "PM" : "AM"`. -/
def time12Label (t : Time24) : String :=
  toString (to12hHour t.hour) ++ ":" ++ pad2 t.minute ++
    (if 12 ≤ t.hour then " PM" else " AM")

/-- The 12h label re-parsed into its fields, as the title regular
expression would extract them from `time12Label`. -/
def parsedLabel (t : Time24) : Time12 :=
  ⟨to12hHour t.hour, t.minute, decide (12 ≤ t.hour)⟩

/-- Minutes after midnight denoted by a `Time24`. -/
def minutesOf (t : Time24) : Nat :=
  t.hour * 60 + t.minute

/-- Wall-clock minutes after midnight denoted by a 12-hour label (the
specification's notion of "the same wall-clock instant"). -/
def wallClock12 (t : Time12) : Nat :=
  (t.hour % 12 + (if t.isPM then 12 else 0)) * 60 + t.minute

/-- `durationMinutes` of `ubc.ts`:
`(eh * 60 + em) - (sh * 60 + sm)` as a JavaScript number, so the result
may be negative. -/
def durationMinutes (s e : Time24) : Int :=
  ((minutesOf e : Int)) - ((minutesOf s : Int))

/-- The `Preferences` input type of `ubc.ts`; every field is optional
and absence means "no filter". -/
structure Preferences where
  days_ahead : Option Nat := none
  start_hour : Option Nat := none
  end_hour : Option Nat := none
  min_minutes : Option Nat := none
  indoor_only : Option Bool := none
  locations : Option (List String) := none
  dates : Option (List String) := none
deriving DecidableEq, Repr

/-- The `Slot` record of `ubc.ts`.  `minutes` is a JavaScript number
and can in principle be negative, so it is embedded as `Int`. -/
structure Slot where
  date_iso : String
  time_24h : String
  minutes : Int
  location : String
  deep_link : Option String
deriving DecidableEq, Repr

/-- The regular expression `^\d{4}-\d{2}-\d{2}$` used twice by
`extractSlotsFromScheduler` to validate a `data-date` attribute. -/
def isIsoDate (s : String) : Bool :=
  match s.data with
  | [a, b, c, d, e, f, g, h, i, j] =>
    a.isDigit && b.isDigit && c.isDigit && d.isDigit && e = '-'
      && f.isDigit && g.isDigit && h = '-' && i.isDigit && j.isDigit
  | _ => false

/-- Date resolution in `extractSlotsFromScheduler`: the `data-date`
attribute of the closest annotated ancestor when it matches the ISO
pattern, otherwise the current date. -/
def resolveDate (dateAttr : Option String) (today : String) : String :=
  match dateAttr with
  | some raw => if isIsoDate raw then raw else today
  | none => today

/-- One "Book Now" span of the scheduler, as probed by
`extractSlotsFromScheduler`: `visible` is `span.isVisible()`,
`textMatches` is the `/^book\s+now$/i` test on its inner text,
`available` is the structural/style availability check performed in
`span.evaluate`, `title` is the `title` attribute, `range` is the
result of matching the time-range regular expression against `title`,
and `dateAttr` is the closest ancestor's `data-date` attribute. -/
structure Marker where
  visible : Bool
  textMatches : Bool
  available : Bool
  title : String
  range : Option (Time12 × Time12)
  dateAttr : Option String
deriving DecidableEq, Repr

/-- The per-interval preference filter of `extractSlotsFromScheduler`,
written as the conjunction of the source's three `continue` guards:
skip if the start hour is below `start_hour`, at or above `end_hour`,
or the duration is below `min_minutes`; an absent field imposes no
filter. -/
def keepInterval (prefs : Preferences) (startHour : Nat) (mins : Int) : Bool :=
  !(match prefs.start_hour with
    | some s => decide (startHour < s)
    | none => false)
  && !(match prefs.end_hour with
    | some e => decide (e ≤ startHour)
    | none => false)
  && !(match prefs.min_minutes with
    | some m => decide (mins < (m : Int))
    | none => false)

/-- `extractSlotsFromScheduler` of `ubc.ts`: walk the "Book Now" spans
in order; skip a span that is invisible, whose text is not exactly
"Book Now", or that the availability check rejects; parse the time
range from its title; convert both endpoints with `to24h`; compute the
duration; apply the preference filter; and emit a `Slot` whose date is
resolved from the `data-date` attribute. -/
def extractSlotsFromScheduler (markers : List Marker) (prefs : Preferences)
    (courtLabel pageUrl today : String) : List Slot :=
  match markers with
  | [] => []
  | m :: rest =>
    let tail := extractSlotsFromScheduler rest prefs courtLabel pageUrl today
    if m.visible = false then tail
    else if m.textMatches = false then tail
    else if m.available = false then tail
    else
      match m.range with
      | none => tail
      | some (s12, e12) =>
        let start24 := to24h s12
        let end24 := to24h e12
        let mins := durationMinutes start24 end24
        if keepInterval prefs start24.hour mins = false then tail
        else
          { date_iso := resolveDate m.dateAttr today
            time_24h := fmt24 start24
            minutes := mins
            location := courtLabel
            deep_link := some pageUrl } :: tail

/-- A thrown JavaScript error, reduced to the `message` field that the
source consumes (`error?.message`). -/
structure Err where
  message : String
deriving DecidableEq, Repr

/-- Side effects that matter to the resource and idempotence claims:
browser lifecycle events and user-visible page actions. -/
inductive Ev where
  | launch
  | close
  | clickLogin
  | clickCwl
  | fillCreds
  | submit
  | navigate
deriving DecidableEq, Repr

/-- `isPrefixList sub l` decides whether `sub` occurs at the head of
`l` (character-by-character). -/
def isPrefixList : List Char → List Char → Bool
  | [], _ => true
  | _ :: _, [] => false
  | a :: as, b :: bs => a == b && isPrefixList as bs

/-- `listContains sub hay` decides whether `sub` occurs contiguously
inside `hay`; it models JavaScript `String.prototype.includes`. -/
def listContains (sub hay : List Char) : Bool :=
  match hay with
  | [] => sub.isEmpty
  | _ :: t => isPrefixList sub hay || listContains sub t

/-- JavaScript `hay.includes(sub)` (case sensitive). -/
def strIncludes (hay sub : String) : Bool :=
  listContains sub.data hay.data

/-- JavaScript `hay.toLowerCase().includes(sub.toLowerCase())`, the
comparison used by the booking pipeline's slot matcher. -/
def strIncludesIC (hay sub : String) : Bool :=
  listContains sub.toLower.data hay.toLower.data

/-- The module-level `BASE_URL` of `ubc.ts` (its default value; the env
override only changes the string). -/
def BASE_URL : String :=
  "https://ubc.perfectmind.com/24063/Clients/BookMe4FacilityList/List?calendarId=e65c1527-c4f8-4316-b6d6-3b174041f00e&widgetId=c7c36ee3-2494-4de2-b2cb-d50a86487656&embed=False&singleCalendarWidget=true"

/-- `BASE_URL.split("?")[0]`, the landing-page base compared against
the post-login URL. -/
def baseNoQuery : String :=
  (BASE_URL.splitOn "?").headD ""

/-- Environment of one `ensureLoggedIn` run: the outcome of every DOM
probe and every throwing `await` in the login flow.  A `Bool` field is
a visibility probe (`isVisible().catch(() => false)` cannot throw); an
`Except` field is an awaited action that may throw (click, `waitFor`
timeout, `waitForLoadState` timeout, `goto`). -/
structure LoginEnv where
  loginVisible : Bool
  clickLogin : Except Err Unit
  newPage : Option Nat
  waitLoad1 : Except Err Unit
  cwlVisible : Bool
  clickCwl : Except Err Unit
  cwlNewPage : Option Nat
  waitLoad2 : Except Err Unit
  user : String
  pass : String
  usernameWait : Except Err Unit
  passwordWait : Except Err Unit
  fillUser : Except Err Unit
  fillPass : Except Err Unit
  clickSubmit : Except Err Unit
  settleWait : Except Err Unit
  urlAfterAuth : String
  gotoBase : Except Err Unit

/-- `ensureLoggedIn` of `ubc.ts` (the final revision; the intermediate
revision differs only in selector details).  Pages are abstract
identifiers; the returned list is the trace of page actions performed.
If no visible Login affordance exists the flow returns the given page
with an empty action trace; otherwise it clicks Login, follows the
optional new tab, tries the CWL fallback chain, requires non-empty
credentials, waits for the credential fields (a timeout is a thrown
error supplied by the environment), fills and submits, waits for the
redirect chain to settle, and navigates back to the landing page when
the settled URL is not on the landing base. -/
def ensureLoggedIn (env : LoginEnv) (page : Nat) : Except Err (Nat × List Ev) :=
  if env.loginVisible = false then
    .ok (page, [])
  else do
    let _ ← env.clickLogin
    let authPage := env.newPage.getD page
    let _ ← env.waitLoad1
    let stage ←
      if env.cwlVisible then do
        let _ ← env.clickCwl
        let ap := env.cwlNewPage.getD authPage
        let _ ← env.waitLoad2
        pure (ap, [Ev.clickCwl])
      else
        pure (authPage, ([] : List Ev))
    if env.user = "" ∨ env.pass = "" then
      .error ⟨"UBC_USER and UBC_PASS must be set in environment"⟩
    else do
      let _ ← env.usernameWait
      let _ ← env.passwordWait
      let _ ← env.fillUser
      let _ ← env.fillPass
      let _ ← env.clickSubmit
      let _ ← env.settleWait
      if (env.urlAfterAuth.startsWith baseNoQuery) = false then do
        let _ ← env.gotoBase
        .ok (stage.1, [Ev.clickLogin] ++ stage.2 ++ [Ev.fillCreds, Ev.submit, Ev.navigate])
      else
        .ok (stage.1, [Ev.clickLogin] ++ stage.2 ++ [Ev.fillCreds, Ev.submit])

/-- The stub `Slot` that `checkAvailability` substitutes when the scan
produces nothing. -/
def stubSlot (today : String) (prefs : Preferences) : Slot :=
  { date_iso := today
    time_24h := "19:00"
    minutes := ((prefs.min_minutes.getD 60 : Nat) : Int)
    location := "UBC Tennis Centre – (stubbed)"
    deep_link := some BASE_URL }

/-- The `try { body } finally { await browser.close() }` shape of both
public operations, reached only after browser acquisition succeeded:
the body runs to an `Except` outcome, and the close event is appended
to the trace no matter how the body ended.  The fallible acquisition
prefix that precedes the `try` is modeled by `runOpFull`. -/
def runWithBrowser {α : Type} (body : Except Err α) (bodyEvents : List Ev) :
    Except Err α × List Ev :=
  (body, Ev.launch :: (bodyEvents ++ [Ev.close]))

/-- The outcomes of the three awaited acquisition steps that precede
the `try` in every public operation:
`const browser = await chromium.launch(…); const context = await
browser.newContext(); let page = await context.newPage();`.  Each may
reject. -/
structure Acquire where
  launch : Except Err Unit
  newContext : Except Err Unit
  newPage : Except Err Unit

/-- A full public operation including the acquisition prefix: a
`launch` rejection exits before any browser exists; a `newContext` or
`newPage` rejection exits after the browser was launched but before
the `try`, so `finally { await browser.close() }` never runs and no
close event is emitted; only when all three succeed does the
`try/finally` of `runWithBrowser` execute. -/
def runOpFull {α : Type} (acq : Acquire) (body : Except Err α)
    (bodyEvents : List Ev) : Except Err α × List Ev :=
  match acq.launch with
  | .error e => (.error e, [])
  | .ok _ =>
    match acq.newContext with
    | .error e => (.error e, [Ev.launch])
    | .ok _ =>
      match acq.newPage with
      | .error e => (.error e, [Ev.launch])
      | .ok _ => runWithBrowser body bodyEvents

namespace UbcMid

/-- One iteration of the intermediate scanner's court loop
(`src/src/ubc.ts`): the `try { … scanSingleCourtPage }` block's outcome
(a thrown error inside it is caught and contributes no slots) and the
outcome of the `goto(BASE_URL)` that returns to the court list (whose
failure breaks the loop, keeping what was collected). -/
structure CourtEnv where
  slots : Except Err (List Slot)
  returnToList : Except Err Unit

/-- The court loop of `scanCourtsAndSlots` in `src/src/ubc.ts`:
per-court errors are swallowed, a failed return-to-list ends the
enumeration early with the slots collected so far. -/
def scanLoop : List CourtEnv → List Slot
  | [] => []
  | c :: rest =>
    let got := match c.slots with
      | .ok l => l
      | .error _ => []
    match c.returnToList with
    | .ok _ => got ++ scanLoop rest
    | .error _ => got

/-- Environment of `scanCourtsAndSlots` in `src/src/ubc.ts`: the
"Choose" affordance count probe (which may throw) and the per-court
outcomes. -/
structure ScanEnv where
  chooseCount : Except Err Nat
  courts : List CourtEnv

/-- `scanCourtsAndSlots` of `src/src/ubc.ts`: count the "Choose"
affordances (zero means an immediate empty result), then iterate at
most `min(count, 10)` courts. -/
def scanCourtsAndSlots (env : ScanEnv) : Except Err (List Slot) := do
  let count ← env.chooseCount
  if count = 0 then
    return []
  else
    return scanLoop (env.courts.take (min count 10))

/-- Environment of one `checkAvailability` run of `src/src/ubc.ts`. -/
structure OpEnv where
  gotoList : Except Err Unit
  login : LoginEnv
  page : Nat
  scan : ScanEnv
  today : String
  bodyEvents : List Ev

/-- `checkAvailability` of `src/src/ubc.ts` (body inside the
`try/finally`): navigate to the landing page, ensure the session is
authenticated, then run the scanner inside an inner `try`; a scan that
throws or collects nothing falls back to the single stub slot dated
today. -/
def checkAvailability (env : OpEnv) (prefs : Preferences) : Except Err (List Slot) := do
  let _ ← env.gotoList
  let _ ← ensureLoggedIn env.login env.page
  match scanCourtsAndSlots env.scan with
  | .ok realSlots =>
    if realSlots.length > 0 then
      return realSlots
    else
      return [stubSlot env.today prefs]
  | .error _ => return [stubSlot env.today prefs]

/-- `checkAvailability` of `src/src/ubc.ts` together with the
browser-lifecycle trace of its `try/finally`. -/
def checkAvailabilityOp (env : OpEnv) (prefs : Preferences) :
    Except Err (List Slot) × List Ev :=
  runWithBrowser (checkAvailability env prefs) env.bodyEvents

end UbcMid

namespace Ubc

/-- The comparator passed to `slots.sort` in the final
`checkAvailability`, as a boolean "less or equal":
`a.date_iso === b.date_iso ? a.time_24h.localeCompare(b.time_24h)
: a.date_iso.localeCompare(b.date_iso)` is non-positive. -/
def slotLe (a b : Slot) : Bool :=
  if a.date_iso = b.date_iso then decide (a.time_24h ≤ b.time_24h)
  else decide (a.date_iso ≤ b.date_iso)

/-- The in-place `slots.sort(comparator)` of the final
`checkAvailability`. -/
def sortSlots (l : List Slot) : List Slot :=
  l.mergeSort slotLe

/-- Environment of one final-revision `checkAvailability` run: the
navigation, the login flow, the scanner's outcome (the set of
discovered slots in whatever order the courts produced them, or the
error it threw), and the current date. -/
structure OpEnv where
  gotoList : Except Err Unit
  login : LoginEnv
  page : Nat
  scan : Except Err (List Slot)
  today : String
  bodyEvents : List Ev

/-- `checkAvailability` of the final `ubc.ts` (body inside the
`try/finally`): navigate, authenticate, scan; sort a non-empty result
by `(date_iso, time_24h)`; substitute the stub slot otherwise.  Unlike
the intermediate revision there is no inner `catch`: a scanner error
propagates. -/
def checkAvailability (env : OpEnv) (prefs : Preferences) : Except Err (List Slot) := do
  let _ ← env.gotoList
  let _ ← ensureLoggedIn env.login env.page
  let slots ← env.scan
  if slots.length > 0 then
    return sortSlots slots
  else
    return [stubSlot env.today prefs]

/-- Final-revision `checkAvailability` with the browser-lifecycle trace
of its `try/finally`. -/
def checkAvailabilityOp (env : OpEnv) (prefs : Preferences) :
    Except Err (List Slot) × List Ev :=
  runWithBrowser (checkAvailability env prefs) env.bodyEvents

end Ubc

namespace Ubc

/-- The `BookingRequest` input of `bookSlot`.  `time24` is the parsed
form of the `"HH:MM"` string (`request.time_24h.split(":").map(Number)`). -/
structure BookingRequest where
  facility_url : String
  time24 : Time24
  duration_hours : Nat
  num_people : Nat

/-- The `booked_slot` snapshot of a successful `BookingResult`. -/
structure BookedSlot where
  time : String
  duration : Nat
  location : String
deriving DecidableEq, Repr

/-- The `BookingResult` record of `ubc.ts`. -/
structure BookingResult where
  success : Bool
  confirmation_number : Option String := none
  message : String
  booked_slot : Option BookedSlot := none
deriving DecidableEq, Repr

/-- One row of the attendee table, as probed by step 3 of the booking
pipeline: its label text, class attribute, hidden flag, whether a
participation checkbox is present and checked, and the outcomes of
clicking the checkbox or the row (either click may throw). -/
structure Attendee where
  label : String
  cls : String
  hidden : Bool
  hasCheckbox : Bool
  checked : Bool
  clickCheckbox : Except Err Unit
  clickRow : Except Err Unit

/-- The primary attendee loop: walk the rows carrying
`selectedAttendeeName`; skip hidden rows; a row whose label contains
`"(You)"` sets the name even when its class marks it disabled (the
source assigns before the disabled check and then `continue`s); an
enabled `"(You)"` row is clicked (checkbox when present and unchecked,
the row itself otherwise) and the loop breaks. -/
def selectYou : List Attendee → String → Except Err String
  | [], nameSoFar => .ok nameSoFar
  | a :: rest, nameSoFar =>
    if a.hidden = true then selectYou rest nameSoFar
    else if strIncludes a.label "(You)" then
      if strIncludes a.cls "disabled" then selectYou rest a.label
      else if a.hasCheckbox then
        if a.checked = false then do
          let _ ← a.clickCheckbox
          .ok a.label
        else .ok a.label
      else do
        let _ ← a.clickRow
        .ok a.label
    else selectYou rest nameSoFar

/-- The fallback attendee loop, entered only when the primary loop set
no name: pick the first visible, non-disabled row that has a
participation checkbox; rows without a checkbox are passed over. -/
def selectFallback : List Attendee → Except Err String
  | [] => .ok ""
  | a :: rest =>
    if strIncludes a.cls "disabled" = false ∧ a.hidden = false then
      if a.hasCheckbox then do
        let _ ← (if a.checked = false then a.clickCheckbox else .ok ())
        .ok a.label
      else selectFallback rest
    else selectFallback rest

/-- Environment of one `bookSlot` run: every DOM probe (`Bool` /
`String` / `Option` fields, from `catch`-guarded reads that cannot
throw) and every throwing awaited action (`Except` fields) of the
five-step pipeline, in pipeline order. -/
structure BookEnv where
  gotoFacility : Except Err Unit
  login : LoginEnv
  page : Nat
  urlAfterLogin : String
  gotoFacility2 : Except Err Unit
  courtName : String
  markers : List Marker
  clickSlot : Except Err Unit
  reserveVisible : Bool
  overlayOps : Except Err Unit
  setAttendees : Except Err Unit
  removeOverlay2 : Except Err Unit
  reserveClick : Except Err Unit
  urlAfterReserve : String
  returnUrl : Option String
  cwlVisible2 : Bool
  clickCwl2 : Except Err Unit
  usernameVisible2 : Bool
  fillCreds2 : Except Err Unit
  submitClick2 : Except Err Unit
  settleWait2 : Except Err Unit
  urlAfterPortalLogin : String
  gotoReturnUrl : Except Err Unit
  urlAfterReauth : String
  reserveClick2 : Except Err Unit
  altBookVisible : Bool
  removeOverlay3 : Except Err Unit
  altBookClick : Except Err Unit
  urlFinal : String
  errorMsg1 : String
  attendees : List Attendee
  nextVisible : Bool
  nextClick : Except Err Unit
  waitAfterNext : Except Err Unit
  cardVisible : Bool
  cardClick : Except Err Unit
  placeOrderVisible : Bool
  placeOrderClick : Except Err Unit
  waitAfterOrder : Except Err Unit
  hasConfirmation : Bool
  errorText : String
  confirmationNumber : Option String
  bodyEvents : List Ev

/-- The `try` body of `bookSlot` in `ubc.ts`: navigate to the facility,
authenticate (navigating back if the login left the facility page),
convert the requested time to the portal's 12-hour label, and run the
five steps, each returning a descriptive failure result when its
affordance is missing; the re-authentication interception and the
stuck-on-facility retry mirror the source's branches. -/
def bookSlotCore (req : BookingRequest) (env : BookEnv) : Except Err BookingResult := do
  let _ ← env.gotoFacility
  let _ ← ensureLoggedIn env.login env.page
  let _ ← (if strIncludes env.urlAfterLogin "BookMe4LandingPages/Facility" = false
           then env.gotoFacility2 else .ok ())
  let time12h := time12Label req.time24
  let target := env.markers.find? (fun m => strIncludesIC m.title time12h)
  if target.isNone then
    return { success := false
             message := "Could not find available slot at " ++ fmt24 req.time24
               ++ " (" ++ time12h ++ ")" }
  let _ ← env.clickSlot
  if env.reserveVisible = false then
    return { success := false
             message := "Reserve button not found after clicking Book Now" }
  let _ ← env.overlayOps
  let _ ← env.setAttendees
  let _ ← env.removeOverlay2
  let _ ← env.reserveClick
  let _ ← (if strIncludes env.urlAfterReserve "portal.recreation.ubc.ca"
              || strIncludes env.urlAfterReserve "Login" then do
      let _ ← (if env.cwlVisible2 then env.clickCwl2 else .ok ())
      let _ ← (if env.usernameVisible2 then do
          let _ ← env.fillCreds2
          let _ ← env.submitClick2
          env.settleWait2
        else .ok ())
      match env.returnUrl with
      | some _ =>
        if strIncludes env.urlAfterPortalLogin "BookMe4EventParticipants" = false
        then env.gotoReturnUrl else .ok ()
      | none => .ok ()
    else .ok ())
  if strIncludes env.urlAfterReauth "BookMe4LandingPages/Facility" then
    let _ ← env.reserveClick2
    let _ ← (if env.altBookVisible then do
        let _ ← env.removeOverlay3
        env.altBookClick
      else .ok ())
    if strIncludes env.urlFinal "BookMe4LandingPages/Facility" then
      if env.errorMsg1 ≠ "" then
        return { success := false
                 message := "Could not proceed with booking: " ++ env.errorMsg1 }
      return { success := false
               message := "Reserve button click did not navigate to attendee selection page" }
  let name1 ← selectYou env.attendees ""
  let name ← (if name1 = "" then selectFallback env.attendees else .ok name1)
  if name = "" then
    return { success := false
             message := "Could not select any attendee - none available or all disabled" }
  if env.nextVisible = false then
    return { success := false
             message := "Next button not found on attendee selection page" }
  let _ ← env.nextClick
  let _ ← env.waitAfterNext
  let _ ← (if env.cardVisible then env.cardClick else .ok ())
  if env.placeOrderVisible = false then
    return { success := false
             message := "Place My Order button not found" }
  let _ ← env.placeOrderClick
  let _ ← env.waitAfterOrder
  if env.errorText ≠ "" ∧ env.hasConfirmation = false then
    return { success := false
             message := "Booking failed: " ++ env.errorText }
  return { success := true
           confirmation_number := env.confirmationNumber
           message := "Booking completed successfully"
           booked_slot := some { time := fmt24 req.time24
                                 duration := req.duration_hours * 60
                                 location := env.courtName.trim } }

/-- `bookSlot` of `ubc.ts`: the pipeline body wrapped in the boundary
`catch` that converts any thrown error into a failure result carrying
the error's message (`error?.message || "Unknown error"`). -/
def bookSlot (req : BookingRequest) (env : BookEnv) : BookingResult :=
  match bookSlotCore req env with
  | .ok r => r
  | .error e =>
    { success := false
      message := "Booking failed: "
        ++ (if e.message = "" then "Unknown error" else e.message) }

end Ubc

/-- The intermediate `checkAvailability` as the caller sees it: the
acquisition prefix, then the `try/finally` around the body, with the
browser-lifecycle trace. -/
def UbcMid.checkAvailabilityFullOp (acq : Acquire) (env : UbcMid.OpEnv)
    (prefs : Preferences) : Except Err (List Slot) × List Ev :=
  runOpFull acq (UbcMid.checkAvailability env prefs) env.bodyEvents

/-- The final `checkAvailability` as the caller sees it: the
acquisition prefix, then the `try/finally` around the body, with the
browser-lifecycle trace. -/
def Ubc.checkAvailabilityFullOp (acq : Acquire) (env : Ubc.OpEnv)
    (prefs : Preferences) : Except Err (List Slot) × List Ev :=
  runOpFull acq (Ubc.checkAvailability env prefs) env.bodyEvents

/-- `bookSlot` as the caller sees it: the acquisition prefix, then the
`try/catch/finally` (whose body always yields a `BookingResult`), with
the browser-lifecycle trace.  An acquisition rejection surfaces as an
`Except.error` — the real `bookSlot` rejects to its caller on that
path, before its boundary `catch` exists. -/
def Ubc.bookSlotFullOp (acq : Acquire) (req : Ubc.BookingRequest)
    (env : Ubc.BookEnv) : Except Err BookingResult × List Ev :=
  runOpFull acq (.ok (Ubc.bookSlot req env)) env.bodyEvents

/-- The result component of `Ubc.bookSlotFullOp`. -/
def Ubc.bookSlotFull (acq : Acquire) (req : Ubc.BookingRequest)
    (env : Ubc.BookEnv) : Except Err BookingResult :=
  (Ubc.bookSlotFullOp acq req env).1

/-- A login environment describing an already-authenticated session:
no visible Login affordance; all other probes benign. -/
def idleLoginEnv : LoginEnv :=
  { loginVisible := false
    clickLogin := .ok ()
    newPage := none
    waitLoad1 := .ok ()
    cwlVisible := false
    clickCwl := .ok ()
    cwlNewPage := none
    waitLoad2 := .ok ()
    user := "user"
    pass := "pass"
    usernameWait := .ok ()
    passwordWait := .ok ()
    fillUser := .ok ()
    fillPass := .ok ()
    clickSubmit := .ok ()
    settleWait := .ok ()
    urlAfterAuth := BASE_URL
    gotoBase := .ok () }

/-- A booking environment in which every awaited action succeeds, the
session is already authenticated, and the scheduler shows no "Book
Now" markers. -/
def emptyBookEnv : Ubc.BookEnv :=
  { gotoFacility := .ok ()
    login := idleLoginEnv
    page := 0
    urlAfterLogin := "https://x/BookMe4LandingPages/Facility"
    gotoFacility2 := .ok ()
    courtName := "Court 1"
    markers := []
    clickSlot := .ok ()
    reserveVisible := true
    overlayOps := .ok ()
    setAttendees := .ok ()
    removeOverlay2 := .ok ()
    reserveClick := .ok ()
    urlAfterReserve := "https://x/BookMe4EventParticipants"
    returnUrl := none
    cwlVisible2 := false
    clickCwl2 := .ok ()
    usernameVisible2 := false
    fillCreds2 := .ok ()
    submitClick2 := .ok ()
    settleWait2 := .ok ()
    urlAfterPortalLogin := "https://x/BookMe4EventParticipants"
    gotoReturnUrl := .ok ()
    urlAfterReauth := "https://x/BookMe4EventParticipants"
    reserveClick2 := .ok ()
    altBookVisible := false
    removeOverlay3 := .ok ()
    altBookClick := .ok ()
    urlFinal := "https://x/BookMe4EventParticipants"
    errorMsg1 := ""
    attendees := [{ label := "Alice (You)", cls := "", hidden := false,
                    hasCheckbox := true, checked := false,
                    clickCheckbox := .ok (), clickRow := .ok () }]
    nextVisible := true
    nextClick := .ok ()
    waitAfterNext := .ok ()
    cardVisible := false
    cardClick := .ok ()
    placeOrderVisible := true
    placeOrderClick := .ok ()
    waitAfterOrder := .ok ()
    hasConfirmation := true
    errorText := ""
    confirmationNumber := none
    bodyEvents := [] }

/-- `emptyBookEnv` with the initial facility navigation throwing. -/
def crashBookEnv : Ubc.BookEnv :=
  { emptyBookEnv with gotoFacility := .error ⟨"Page crashed"⟩ }

/-- A sample booking request for 19:00, one hour, two people. -/
def sampleRequest : Ubc.BookingRequest :=
  { facility_url := "https://x/BookMe4LandingPages/Facility"
    time24 := ⟨19, 0⟩
    duration_hours := 1
    num_people := 2 }

/-- A scanner environment for the intermediate revision in which the
resource-list page has zero "Choose" affordances. -/
def emptyScanEnvMid : UbcMid.ScanEnv :=
  { chooseCount := .ok 0, courts := [] }

/-- An intermediate-revision operation environment: authenticated
session, zero "Choose" affordances. -/
def emptyOpEnvMid : UbcMid.OpEnv :=
  { gotoList := .ok (), login := idleLoginEnv, page := 0,
    scan := emptyScanEnvMid, today := "2026-10-12", bodyEvents := [] }

/-- A final-revision operation environment whose scan discovers no
slots. -/
def emptyOpEnvFinal : Ubc.OpEnv :=
  { gotoList := .ok (), login := idleLoginEnv, page := 0,
    scan := .ok [], today := "2026-10-12", bodyEvents := [] }

/-- An acquisition in which launch, context and page creation all
succeed. -/
def okAcq : Acquire :=
  { launch := .ok (), newContext := .ok (), newPage := .ok () }

/-- An acquisition in which the launch succeeds but `newPage` rejects
(the browser died between launch and page creation). -/
def leakAcq : Acquire :=
  { launch := .ok (), newContext := .ok (),
    newPage := .error ⟨"Target closed"⟩ }

theorem to24hHour_eq_mod (h : Nat) (pm : Bool) (h1 : 1 ≤ h) (h2 : h ≤ 12) :
    to24hHour h pm = h % 12 + (if pm then 12 else 0) := by
  have key : ∀ n, n < 13 → ∀ b : Bool, 1 ≤ n →
      to24hHour n b = n % 12 + (if b then 12 else 0) := by decide
  exact key h (by omega) pm h1

theorem to12h_to24h_hour (H : Nat) (hH : H < 24) :
    to24hHour (to12hHour H) (decide (12 ≤ H)) = H := by
  have key : ∀ n, n < 24 → to24hHour (to12hHour n) (decide (12 ≤ n)) = n := by decide
  exact key H hH

/-- Claim C4: converting a 12-hour label `h:mm AM/PM` (h ∈ [1,12]) to
24-hour form preserves the wall-clock instant; `12:00 AM → 00:00`,
`12:00 PM → 12:00`, `1:00 PM → 13:00`; and the booking pipeline's
24h → 12h conversion is a right inverse of the 24-hour conversion. -/
theorem time_conversion_roundtrip (t : Time12) (h1 : 1 ≤ t.hour) (h2 : t.hour ≤ 12) :
    minutesOf (to24h t) = wallClock12 t
    ∧ fmt24 (to24h ⟨12, 0, false⟩) = "00:00"
    ∧ fmt24 (to24h ⟨12, 0, true⟩) = "12:00"
    ∧ fmt24 (to24h ⟨1, 0, true⟩) = "13:00"
    ∧ (∀ u : Time24, u.hour < 24 → to24h (parsedLabel u) = u) := by
  refine ⟨?_, by decide, by decide, by decide, ?_⟩
  · simp only [minutesOf, to24h, wallClock12]
    rw [to24hHour_eq_mod t.hour t.isPM h1 h2]
  · intro u hu
    simp only [to24h, parsedLabel]
    have := to12h_to24h_hour u.hour hu
    cases u
    simp_all

/-- Witness for C4 at the concrete label `3:30 PM`. -/
theorem time_conversion_roundtrip_witness :
    minutesOf (to24h ⟨3, 30, true⟩) = wallClock12 ⟨3, 30, true⟩
    ∧ fmt24 (to24h ⟨12, 0, false⟩) = "00:00"
    ∧ fmt24 (to24h ⟨12, 0, true⟩) = "12:00"
    ∧ fmt24 (to24h ⟨1, 0, true⟩) = "13:00"
    ∧ (∀ u : Time24, u.hour < 24 → to24h (parsedLabel u) = u) :=
  time_conversion_roundtrip ⟨3, 30, true⟩ (by decide) (by decide)

theorem mem_extractSlots {markers : List Marker} {prefs : Preferences}
    {courtLabel pageUrl today : String} {s : Slot}
    (hs : s ∈ extractSlotsFromScheduler markers prefs courtLabel pageUrl today) :
    ∃ m ∈ markers, ∃ s12 e12, m.range = some (s12, e12)
      ∧ keepInterval prefs (to24h s12).hour (durationMinutes (to24h s12) (to24h e12)) = true
      ∧ s = { date_iso := resolveDate m.dateAttr today
              time_24h := fmt24 (to24h s12)
              minutes := durationMinutes (to24h s12) (to24h e12)
              location := courtLabel
              deep_link := some pageUrl } := by
  induction markers with
  | nil => simp [extractSlotsFromScheduler] at hs
  | cons m rest ih =>
    rw [extractSlotsFromScheduler] at hs
    by_cases hv : m.visible = false
    · simp only [hv, if_true] at hs
      obtain ⟨m', hm', rest'⟩ := ih hs
      exact ⟨m', List.mem_cons_of_mem _ hm', rest'⟩
    · simp only [hv, if_false] at hs
      by_cases ht : m.textMatches = false
      · simp only [ht, if_true] at hs
        obtain ⟨m', hm', rest'⟩ := ih hs
        exact ⟨m', List.mem_cons_of_mem _ hm', rest'⟩
      · simp only [ht, if_false] at hs
        by_cases ha : m.available = false
        · simp only [ha, if_true] at hs
          obtain ⟨m', hm', rest'⟩ := ih hs
          exact ⟨m', List.mem_cons_of_mem _ hm', rest'⟩
        · simp only [ha, if_false] at hs
          cases hr : m.range with
          | none =>
            simp only [hr] at hs
            obtain ⟨m', hm', rest'⟩ := ih hs
            exact ⟨m', List.mem_cons_of_mem _ hm', rest'⟩
          | some p =>
            obtain ⟨s12, e12⟩ := p
            simp only [hr] at hs
            by_cases hk : keepInterval prefs (to24h s12).hour
                (durationMinutes (to24h s12) (to24h e12)) = false
            · simp only [hk, if_true] at hs
              obtain ⟨m', hm', rest'⟩ := ih hs
              exact ⟨m', List.mem_cons_of_mem _ hm', rest'⟩
            · simp only [hk, if_false] at hs
              rcases List.mem_cons.mp hs with h | h
              · exact ⟨m, List.mem_cons_self _ _,
                  s12, e12, hr, by simpa using hk, h⟩
              · obtain ⟨m', hm', rest'⟩ := ih h
                exact ⟨m', List.mem_cons_of_mem _ hm', rest'⟩

/-- Counterexample for C2: a visible, available "Book Now" span whose
title time range wraps past midnight (`11:00 PM-12:00 AM`).  With no
`min_minutes` preference the scanner emits a slot whose `minutes` is
`-1380`, so the minutes of a produced slot are not always positive. -/
theorem slot_minutes_not_always_positive :
    ∃ s ∈ extractSlotsFromScheduler
        [{ visible := true, textMatches := true, available := true,
           title := "11:00 PM-12:00 AM",
           range := some (⟨11, 0, true⟩, ⟨12, 0, false⟩),
           dateAttr := none }]
        {} "Court 1" "https://example/facility" "2026-10-12",
      s.minutes ≤ 0 := by
  refine ⟨{ date_iso := "2026-10-12", time_24h := "23:00", minutes := -1380,
            location := "Court 1", deep_link := some "https://example/facility" },
          ?_, by decide⟩
  decide

/-- Claim C2 (amended): every slot produced by the scanner has
`minutes` equal to `end − start` of its parsed time range, and that
value is positive whenever the parsed end lies after the parsed start
on the same day; in particular `durationMinutes` of two 24-hour times
`start < end` is the positive number of minutes between them.  (The
unconditional positivity of the original claim fails for a range that
wraps past midnight; see the counterexample.) -/
theorem slot_minutes_eq_duration {markers : List Marker} {prefs : Preferences}
    {courtLabel pageUrl today : String} {s : Slot}
    (hs : s ∈ extractSlotsFromScheduler markers prefs courtLabel pageUrl today) :
    (∃ m ∈ markers, ∃ s12 e12, m.range = some (s12, e12)
        ∧ s.minutes = durationMinutes (to24h s12) (to24h e12)
        ∧ (minutesOf (to24h s12) < minutesOf (to24h e12) → 0 < s.minutes))
    ∧ (∀ a b : Time24, minutesOf a < minutesOf b →
        durationMinutes a b = (minutesOf b : Int) - (minutesOf a : Int)
          ∧ 0 < durationMinutes a b) := by
  constructor
  · obtain ⟨m, hm, s12, e12, hr, _, hsEq⟩ := mem_extractSlots hs
    refine ⟨m, hm, s12, e12, hr, by rw [hsEq], ?_⟩
    intro hlt
    rw [hsEq]
    simp only [durationMinutes]
    omega
  · intro a b hab
    constructor
    · rfl
    · simp only [durationMinutes]
      omega

/-- Witness for C2 (amended) at a concrete scheduler containing one
well-formed slot `3:00 PM-4:00 PM`. -/
theorem slot_minutes_eq_duration_witness :
    (∃ m ∈ [({ visible := true, textMatches := true, available := true,
               title := "3:00 PM-4:00 PM",
               range := some (⟨3, 0, true⟩, ⟨4, 0, true⟩),
               dateAttr := none } : Marker)],
        ∃ s12 e12, m.range = some (s12, e12)
        ∧ ({ date_iso := "2026-10-12", time_24h := "15:00", minutes := 60,
             location := "Court 1", deep_link := some "u" } : Slot).minutes
            = durationMinutes (to24h s12) (to24h e12)
        ∧ (minutesOf (to24h s12) < minutesOf (to24h e12) →
            0 < ({ date_iso := "2026-10-12", time_24h := "15:00", minutes := 60,
                   location := "Court 1", deep_link := some "u" } : Slot).minutes))
    ∧ (∀ a b : Time24, minutesOf a < minutesOf b →
        durationMinutes a b = (minutesOf b : Int) - (minutesOf a : Int)
          ∧ 0 < durationMinutes a b) :=
  slot_minutes_eq_duration
    (show ({ date_iso := "2026-10-12", time_24h := "15:00", minutes := 60,
             location := "Court 1", deep_link := some "u" } : Slot)
        ∈ extractSlotsFromScheduler
            [{ visible := true, textMatches := true, available := true,
               title := "3:00 PM-4:00 PM",
               range := some (⟨3, 0, true⟩, ⟨4, 0, true⟩),
               dateAttr := none }]
            {} "Court 1" "u" "2026-10-12"
      by decide)

/-- Claim C5: the scanner keeps a discovered interval exactly when its
start hour is at least `start_hour` (when given), strictly below
`end_hour` (when given), and its duration is at least `min_minutes`
(when given); absent fields impose no filter. -/
theorem preference_filter_iff (prefs : Preferences) (h : Nat) (mins : Int) :
    keepInterval prefs h mins = true ↔
      ((∀ s, prefs.start_hour = some s → s ≤ h)
       ∧ (∀ e, prefs.end_hour = some e → h < e)
       ∧ (∀ m, prefs.min_minutes = some m → (m : Int) ≤ mins)) := by
  rcases prefs with ⟨d, sh, eh, mm, io, locs, dts⟩
  cases sh <;> cases eh <;> cases mm
  all_goals simp [keepInterval]
  all_goals omega

theorem string_data_append (a b : String) : (a ++ b).data = a.data ++ b.data := rfl

theorem isPrefixList_append (l r : List Char) : isPrefixList l (l ++ r) = true := by
  induction l with
  | nil => rfl
  | cons a as ih => simp [isPrefixList, ih]

theorem listContains_nil (hay : List Char) : listContains [] hay = true := by
  cases hay with
  | nil => rfl
  | cons a t => simp [listContains, isPrefixList]

theorem listContains_front (sub rest : List Char) :
    listContains sub (sub ++ rest) = true := by
  cases sub with
  | nil => exact listContains_nil rest
  | cons s ss =>
    simp only [listContains, Bool.or_eq_true]
    exact Or.inl (isPrefixList_append _ _)

theorem listContains_suffix (pre sub : List Char) :
    listContains sub (pre ++ sub) = true := by
  induction pre with
  | nil => simpa using listContains_front sub []
  | cons p ps ih =>
    simp [listContains, ih]

/-- Claim C8: on an already-authenticated page (no visible Login
affordance) `ensureLoggedIn` returns the same page with an empty action
trace, and invoking it a second time on the returned page again
performs no action. -/
theorem ensureLoggedIn_idempotent (env : LoginEnv) (page : Nat)
    (h : env.loginVisible = false) :
    ensureLoggedIn env page = .ok (page, [])
    ∧ (∀ p t, ensureLoggedIn env page = .ok (p, t) →
        ensureLoggedIn env p = .ok (p, [])) := by
  have h1 : ensureLoggedIn env page = .ok (page, []) := by
    unfold ensureLoggedIn
    simp [h]
  refine ⟨h1, ?_⟩
  intro p t hp
  rw [h1] at hp
  simp only [Except.ok.injEq, Prod.mk.injEq] at hp
  obtain ⟨hp1, _⟩ := hp
  subst hp1
  exact h1

/-- Witness for C8: the idle login environment on page `0`. -/
theorem ensureLoggedIn_idempotent_witness :
    ensureLoggedIn idleLoginEnv 0 = .ok (0, [])
    ∧ (∀ p t, ensureLoggedIn idleLoginEnv 0 = .ok (p, t) →
        ensureLoggedIn idleLoginEnv p = .ok (p, [])) :=
  ensureLoggedIn_idempotent idleLoginEnv 0 rfl

/-- Counterexample for C9: `newPage` rejects after a successful
launch.  Each operation exits with the thrown error, its trace holds
the launch but no close event — the launched browser is never
released, because the rejection happens before the `try/finally`. -/
theorem browser_leak_on_acquisition_failure :
    (Ubc.checkAvailabilityFullOp leakAcq emptyOpEnvFinal {}).1
        = .error ⟨"Target closed"⟩
    ∧ (Ubc.checkAvailabilityFullOp leakAcq emptyOpEnvFinal {}).2 = [Ev.launch]
    ∧ Ev.close ∉ (Ubc.checkAvailabilityFullOp leakAcq emptyOpEnvFinal {}).2
    ∧ (Ubc.bookSlotFullOp leakAcq sampleRequest emptyBookEnv).2 = [Ev.launch]
    ∧ Ev.close ∉ (Ubc.bookSlotFullOp leakAcq sampleRequest emptyBookEnv).2
    ∧ (UbcMid.checkAvailabilityFullOp leakAcq emptyOpEnvMid {}).2 = [Ev.launch]
    ∧ Ev.close ∉ (UbcMid.checkAvailabilityFullOp leakAcq emptyOpEnvMid {}).2 :=
  ⟨rfl, rfl, by decide, rfl, by decide, rfl, by decide⟩

/-- Claim C9 (amended): on every exit path reached after browser
acquisition succeeds — normal return as well as a thrown error
(timeouts are thrown errors) — the trace of browser events ends with
the browser close, for the intermediate `checkAvailability`, the final
`checkAvailability`, and `bookSlot`; a rejection of `newContext` or
`newPage`, which the sources await before the `try`, instead exits
without closing the launched browser (see the counterexample). -/
theorem browser_closed_after_acquisition (acq : Acquire)
    (envM : UbcMid.OpEnv) (envF : Ubc.OpEnv) (prefsM prefsF : Preferences)
    (req : Ubc.BookingRequest) (envB : Ubc.BookEnv)
    (hl : acq.launch = .ok ()) (hc : acq.newContext = .ok ())
    (hp : acq.newPage = .ok ()) :
    (UbcMid.checkAvailabilityFullOp acq envM prefsM).2.getLast? = some Ev.close
    ∧ (Ubc.checkAvailabilityFullOp acq envF prefsF).2.getLast? = some Ev.close
    ∧ (Ubc.bookSlotFullOp acq req envB).2.getLast? = some Ev.close := by
  have hrun : ∀ (α : Type) (body : Except Err α) (evs : List Ev),
      runOpFull acq body evs = runWithBrowser body evs := by
    intro α body evs
    unfold runOpFull
    rw [hl, hc, hp]
  refine ⟨?_, ?_, ?_⟩
  · unfold UbcMid.checkAvailabilityFullOp
    rw [hrun]
    show (Ev.launch :: (envM.bodyEvents ++ [Ev.close])).getLast? = some Ev.close
    rw [← List.cons_append]
    exact List.getLast?_concat _
  · unfold Ubc.checkAvailabilityFullOp
    rw [hrun]
    show (Ev.launch :: (envF.bodyEvents ++ [Ev.close])).getLast? = some Ev.close
    rw [← List.cons_append]
    exact List.getLast?_concat _
  · unfold Ubc.bookSlotFullOp
    rw [hrun]
    show (Ev.launch :: (envB.bodyEvents ++ [Ev.close])).getLast? = some Ev.close
    rw [← List.cons_append]
    exact List.getLast?_concat _

/-- Witness for C9 (amended): a successful acquisition; all three
traces end with the close event. -/
theorem browser_closed_after_acquisition_witness :
    (UbcMid.checkAvailabilityFullOp okAcq emptyOpEnvMid {}).2.getLast? = some Ev.close
    ∧ (Ubc.checkAvailabilityFullOp okAcq emptyOpEnvFinal {}).2.getLast? = some Ev.close
    ∧ (Ubc.bookSlotFullOp okAcq sampleRequest emptyBookEnv).2.getLast? = some Ev.close :=
  browser_closed_after_acquisition okAcq emptyOpEnvMid emptyOpEnvFinal {} {}
    sampleRequest emptyBookEnv rfl rfl rfl

theorem chooseCount_zero_scan (env : UbcMid.ScanEnv)
    (h : env.chooseCount = .ok 0) :
    UbcMid.scanCourtsAndSlots env = .ok [] := by
  unfold UbcMid.scanCourtsAndSlots
  rw [h]
  rfl

/-- Claim C1: whenever the intermediate-revision `checkAvailability`
returns, it returns a non-empty list; and whenever the scan collects
zero slots or throws — in particular when the resource-list page has
zero "Choose" affordances — it returns exactly the single stub slot,
whose `date_iso` is the current date. -/
theorem checkAvailability_placeholder (env : UbcMid.OpEnv) (prefs : Preferences)
    (r : List Slot)
    (h : (UbcMid.checkAvailabilityOp env prefs).1 = .ok r) :
    r ≠ []
    ∧ ((UbcMid.scanCourtsAndSlots env.scan = .ok [] ∨
        (∃ e, UbcMid.scanCourtsAndSlots env.scan = .error e)) →
        r = [stubSlot env.today prefs])
    ∧ (env.scan.chooseCount = .ok 0 → r = [stubSlot env.today prefs])
    ∧ (stubSlot env.today prefs).date_iso = env.today := by
  have hb : UbcMid.checkAvailability env prefs = .ok r := h
  unfold UbcMid.checkAvailability at hb
  cases hg : env.gotoList with
  | error e => rw [hg] at hb; simp [Bind.bind, Except.bind] at hb
  | ok u =>
    rw [hg] at hb
    cases hl : ensureLoggedIn env.login env.page with
    | error e => rw [hl] at hb; simp [Bind.bind, Except.bind] at hb
    | ok pt =>
      rw [hl] at hb
      simp only [Bind.bind, Except.bind] at hb
      cases hs : UbcMid.scanCourtsAndSlots env.scan with
      | error e =>
        rw [hs] at hb
        simp only [pure, Except.pure, Except.ok.injEq] at hb
        subst hb
        exact ⟨by simp, fun _ => rfl, fun _ => rfl, rfl⟩
      | ok l =>
        rw [hs] at hb
        dsimp only at hb
        by_cases hlen : l.length > 0
        · rw [if_pos hlen] at hb
          simp only [pure, Except.pure, Except.ok.injEq] at hb
          subst hb
          refine ⟨by intro hnil; rw [hnil] at hlen; simp at hlen, ?_, ?_, rfl⟩
          · rintro (hz | ⟨e, hz⟩)
            · simp only [Except.ok.injEq] at hz
              subst hz
              simp at hlen
            · cases hz
          · intro h0
            have hz := chooseCount_zero_scan env.scan h0
            rw [hz] at hs
            simp only [Except.ok.injEq] at hs
            subst hs
            simp at hlen
        · rw [if_neg hlen] at hb
          simp only [pure, Except.pure, Except.ok.injEq] at hb
          subst hb
          exact ⟨by simp, fun _ => rfl, fun _ => rfl, rfl⟩

/-- Witness for C1: an authenticated session whose resource list shows
zero "Choose" affordances yields exactly the stub slot dated today. -/
theorem checkAvailability_placeholder_witness :
    ([stubSlot "2026-10-12" {}] : List Slot) ≠ []
    ∧ ((UbcMid.scanCourtsAndSlots emptyOpEnvMid.scan = .ok [] ∨
        (∃ e, UbcMid.scanCourtsAndSlots emptyOpEnvMid.scan = .error e)) →
        [stubSlot "2026-10-12" {}] = [stubSlot emptyOpEnvMid.today {}])
    ∧ (emptyOpEnvMid.scan.chooseCount = .ok 0 →
        [stubSlot "2026-10-12" {}] = [stubSlot emptyOpEnvMid.today {}])
    ∧ (stubSlot emptyOpEnvMid.today {}).date_iso = emptyOpEnvMid.today :=
  checkAvailability_placeholder emptyOpEnvMid {} [stubSlot "2026-10-12" {}] rfl

theorem slotLe_total (a b : Slot) : (Ubc.slotLe a b || Ubc.slotLe b a) = true := by
  unfold Ubc.slotLe
  by_cases hd : a.date_iso = b.date_iso
  · have hd2 : b.date_iso = a.date_iso := hd.symm
    simp only [if_pos hd, if_pos hd2, Bool.or_eq_true, decide_eq_true_eq]
    exact le_total a.time_24h b.time_24h
  · have hd2 : ¬ b.date_iso = a.date_iso := fun hh => hd hh.symm
    simp only [if_neg hd, if_neg hd2, Bool.or_eq_true, decide_eq_true_eq]
    exact le_total a.date_iso b.date_iso

theorem slotLe_trans (a b c : Slot) (hab : Ubc.slotLe a b = true)
    (hbc : Ubc.slotLe b c = true) : Ubc.slotLe a c = true := by
  unfold Ubc.slotLe at hab hbc ⊢
  by_cases h1 : a.date_iso = b.date_iso
  · by_cases h2 : b.date_iso = c.date_iso
    · have h3 : a.date_iso = c.date_iso := h1.trans h2
      simp only [if_pos h1, decide_eq_true_eq] at hab
      simp only [if_pos h2, decide_eq_true_eq] at hbc
      simp only [if_pos h3, decide_eq_true_eq]
      exact le_trans hab hbc
    · have h3 : ¬ a.date_iso = c.date_iso := fun hh => h2 (h1.symm.trans hh)
      simp only [if_neg h2, decide_eq_true_eq] at hbc
      simp only [if_neg h3, decide_eq_true_eq]
      rw [h1]
      exact hbc
  · by_cases h2 : b.date_iso = c.date_iso
    · have h3 : ¬ a.date_iso = c.date_iso := fun hh => h1 (hh.trans h2.symm)
      simp only [if_neg h1, decide_eq_true_eq] at hab
      simp only [if_neg h3, decide_eq_true_eq]
      rw [← h2]
      exact hab
    · simp only [if_neg h1, decide_eq_true_eq] at hab
      simp only [if_neg h2, decide_eq_true_eq] at hbc
      by_cases h3 : a.date_iso = c.date_iso
      · exfalso
        rw [← h3] at hbc
        exact h1 (le_antisymm hab hbc)
      · simp only [if_neg h3, decide_eq_true_eq]
        exact le_trans hab hbc

/-- Claim C6: every list the final `checkAvailability` returns is
sorted ascending by `(date_iso, time_24h)` under string comparison,
whatever order the scanner discovered the slots in. -/
theorem checkAvailability_sorted (env : Ubc.OpEnv) (prefs : Preferences)
    (r : List Slot)
    (h : (Ubc.checkAvailabilityOp env prefs).1 = .ok r) :
    r.Pairwise (fun a b => Ubc.slotLe a b = true) := by
  have hb : Ubc.checkAvailability env prefs = .ok r := h
  unfold Ubc.checkAvailability at hb
  cases hg : env.gotoList with
  | error e => rw [hg] at hb; simp [Bind.bind, Except.bind] at hb
  | ok u =>
    rw [hg] at hb
    cases hl : ensureLoggedIn env.login env.page with
    | error e => rw [hl] at hb; simp [Bind.bind, Except.bind] at hb
    | ok pt =>
      rw [hl] at hb
      cases hs : env.scan with
      | error e => rw [hs] at hb; simp [Bind.bind, Except.bind] at hb
      | ok slots =>
        rw [hs] at hb
        simp only [Bind.bind, Except.bind] at hb
        by_cases hlen : slots.length > 0
        · rw [if_pos hlen] at hb
          simp only [pure, Except.pure, Except.ok.injEq] at hb
          subst hb
          have hsorted := List.sorted_mergeSort slotLe_trans
            (fun a b => slotLe_total a b) slots
          simpa [Ubc.sortSlots] using hsorted
        · rw [if_neg hlen] at hb
          simp only [pure, Except.pure, Except.ok.injEq] at hb
          subst hb
          exact List.pairwise_singleton _ _

/-- Witness for C6: a scan that discovers nothing; the returned stub
singleton is (trivially) sorted. -/
theorem checkAvailability_sorted_witness :
    ([stubSlot "2026-10-12" {}] : List Slot).Pairwise
      (fun a b => Ubc.slotLe a b = true) :=
  checkAvailability_sorted emptyOpEnvFinal {} [stubSlot "2026-10-12" {}] rfl

theorem bookSlot_boundary_catch (req : Ubc.BookingRequest) (env : Ubc.BookEnv) :
    (∀ e, Ubc.bookSlotCore req env = .error e →
      (Ubc.bookSlot req env).success = false
      ∧ listContains e.message.data (Ubc.bookSlot req env).message.data = true)
    ∧ (∀ r, Ubc.bookSlotCore req env = .ok r → Ubc.bookSlot req env = r) := by
  constructor
  · intro e he
    have hb : Ubc.bookSlot req env
        = { success := false
            message := "Booking failed: "
              ++ (if e.message = "" then "Unknown error" else e.message) } := by
      unfold Ubc.bookSlot
      rw [he]
    rw [hb]
    refine ⟨rfl, ?_⟩
    by_cases hm : e.message = ""
    · have h0 : e.message.data = [] := by rw [hm]
      rw [h0]
      exact listContains_nil _
    · dsimp only
      rw [if_neg hm, string_data_append]
      exact listContains_suffix _ _
  · intro r hr
    unfold Ubc.bookSlot
    rw [hr]

/-- Counterexample for C3: `newPage` rejects after a successful
launch; `bookSlot` ends in the thrown error instead of returning a
`BookingResult` — the rejection precedes the `try/catch`, so the
boundary catch never runs and the exception reaches the caller. -/
theorem bookSlot_throws_on_acquisition_failure :
    Ubc.bookSlotFull leakAcq sampleRequest emptyBookEnv
      = .error ⟨"Target closed"⟩ := rfl

/-- Claim C3 (amended): whenever browser acquisition succeeds,
`bookSlot` returns a `BookingResult` for every request and
environment; a pipeline body that throws is converted at the boundary
into a failure result whose message contains the underlying error's
message, and a body that produces a result (success or a step's
descriptive failure) is returned unchanged, never recovered into
something else.  A rejection of `chromium.launch`, `newContext` or
`newPage`, awaited before the `try/catch`, instead propagates to the
caller (see the counterexample). -/
theorem bookSlot_returns_result_after_acquisition (acq : Acquire)
    (req : Ubc.BookingRequest) (env : Ubc.BookEnv)
    (hl : acq.launch = .ok ()) (hc : acq.newContext = .ok ())
    (hp : acq.newPage = .ok ()) :
    Ubc.bookSlotFull acq req env = .ok (Ubc.bookSlot req env)
    ∧ (∀ e, Ubc.bookSlotCore req env = .error e →
        (Ubc.bookSlot req env).success = false
        ∧ listContains e.message.data (Ubc.bookSlot req env).message.data = true)
    ∧ (∀ r, Ubc.bookSlotCore req env = .ok r → Ubc.bookSlot req env = r) := by
  have hfull : Ubc.bookSlotFull acq req env = .ok (Ubc.bookSlot req env) := by
    unfold Ubc.bookSlotFull Ubc.bookSlotFullOp runOpFull
    rw [hl, hc, hp]
    rfl
  exact ⟨hfull, (bookSlot_boundary_catch req env).1,
    (bookSlot_boundary_catch req env).2⟩

/-- Witness for C3 (amended): a successful acquisition over an
environment whose initial facility navigation throws `Page crashed`;
`bookSlot` still returns a result, a failure whose message contains
the error's message. -/
theorem bookSlot_returns_result_after_acquisition_witness :
    Ubc.bookSlotFull okAcq sampleRequest crashBookEnv
        = .ok (Ubc.bookSlot sampleRequest crashBookEnv)
    ∧ (∀ e, Ubc.bookSlotCore sampleRequest crashBookEnv = .error e →
        (Ubc.bookSlot sampleRequest crashBookEnv).success = false
        ∧ listContains e.message.data
            (Ubc.bookSlot sampleRequest crashBookEnv).message.data = true)
    ∧ (∀ r, Ubc.bookSlotCore sampleRequest crashBookEnv = .ok r →
        Ubc.bookSlot sampleRequest crashBookEnv = r) :=
  bookSlot_returns_result_after_acquisition okAcq sampleRequest crashBookEnv
    rfl rfl rfl

/-- Claim C7: when no bookable marker's title contains the requested
time's 12-hour label, `bookSlot` returns a failure result whose
message contains "Could not find available slot" (given that the
pipeline reaches the marker scan: the navigations and the login flow
succeed). -/
theorem bookSlot_no_matching_slot (req : Ubc.BookingRequest) (env : Ubc.BookEnv)
    (hg : env.gotoFacility = .ok ())
    (hl : ∃ pt, ensureLoggedIn env.login env.page = .ok pt)
    (hg2 : env.gotoFacility2 = .ok ())
    (hm : ∀ m ∈ env.markers,
      strIncludesIC m.title (time12Label req.time24) = false) :
    (Ubc.bookSlot req env).success = false
    ∧ listContains ("Could not find available slot").data
        (Ubc.bookSlot req env).message.data = true := by
  obtain ⟨pt, hl⟩ := hl
  have hfind : env.markers.find?
      (fun m => strIncludesIC m.title (time12Label req.time24)) = none :=
    List.find?_eq_none.mpr (fun m hmem => by simp [hm m hmem])
  have hcore : Ubc.bookSlotCore req env
      = .ok { success := false
              message := "Could not find available slot at " ++ fmt24 req.time24
                ++ " (" ++ time12Label req.time24 ++ ")" } := by
    unfold Ubc.bookSlotCore
    by_cases hu : strIncludes env.urlAfterLogin "BookMe4LandingPages/Facility" = false <;>
      simp [hg, hl, hg2, hfind, hu, Bind.bind, Except.bind] <;> rfl
  have hb : Ubc.bookSlot req env
      = { success := false
          message := "Could not find available slot at " ++ fmt24 req.time24
            ++ " (" ++ time12Label req.time24 ++ ")" } := by
    unfold Ubc.bookSlot
    rw [hcore]
  rw [hb]
  refine ⟨rfl, ?_⟩
  have hsplit : ("Could not find available slot at ").data
      = ("Could not find available slot").data ++ (" at ").data := by decide
  show listContains ("Could not find available slot").data
      (("Could not find available slot at " ++ fmt24 req.time24
        ++ " (" ++ time12Label req.time24 ++ ")").data) = true
  rw [string_data_append, string_data_append, string_data_append,
    string_data_append, hsplit]
  simp only [List.append_assoc]
  exact listContains_front _ _

/-- Witness for C7: an authenticated session on a facility page with
no "Book Now" markers at all. -/
theorem bookSlot_no_matching_slot_witness :
    (Ubc.bookSlot sampleRequest emptyBookEnv).success = false
    ∧ listContains ("Could not find available slot").data
        (Ubc.bookSlot sampleRequest emptyBookEnv).message.data = true :=
  bookSlot_no_matching_slot sampleRequest emptyBookEnv rfl ⟨(0, []), rfl⟩ rfl
    (by simp [emptyBookEnv])

end FacilityBooker
